import Mathlib

set_option maxRecDepth 10000

namespace GoPubSub

/-! Shallow embedding of gopubsub's broker (src/server/server.go).

Bytes are modelled as `Nat` values below 256 and byte strings as `List Nat`.
Machine integers are `Nat` with explicit reduction modulo `2 ^ 32` / `2 ^ 64`
at the points where the Go code truncates or wraps.  Fallible file-system and
network effects are modelled as explicit oracle parameters returning
`Option Err`. -/

/-- Error outcomes of the modelled operations. -/
inductive Err
  | notFound
  | internalEmpty
  | ioFailure
  | marshalFailed
deriving DecidableEq, Repr

/-- A segment file: `MessageSet` in server.go, carrying its path and the
offset of the first message it holds. -/
structure MessageSet where
  path : String
  offsetBegin : Nat
deriving DecidableEq, Repr

/-- A topic: name, ordered segment list, and the bytes written through its
buffered writer (the content of the current segment file). -/
structure Topic where
  name : String
  messageSets : List MessageSet
  file : List Nat
deriving DecidableEq, Repr

/-- The broker: data directory plus the topic registry (`Server` in
server.go). -/
structure ServerState where
  dir : String
  topics : String → Option Topic

/-- path.Join of two components, as server.go uses it. -/
def pathJoin (a b : String) : String := a ++ "/" ++ b

/-- fmt.Sprintf "%012d": decimal digits left-padded with zeros to width 12. -/
def sprintf012 (n : Nat) : String :=
  let s := toString n
  String.mk (List.replicate (12 - s.length) '0') ++ s

/-- One round of the bit-reflected CRC-32 step (IEEE polynomial, reversed
representation 0xEDB88320), the table-free equivalent of hash/crc32's lookup
table. -/
def crc32Round (c : Nat) : Nat :=
  if c % 2 = 1 then (c / 2) ^^^ 0xEDB88320 else c / 2

def crc32Rounds : Nat → Nat → Nat
  | 0, c => c
  | k + 1, c => crc32Rounds k (crc32Round c)

/-- hash/crc32 `update`: invert, fold every byte through eight rounds,
invert back. -/
def crc32Update (crc : Nat) (p : List Nat) : Nat :=
  (List.foldl (fun c b => crc32Rounds 8 (c ^^^ (b % 256))) (crc ^^^ 0xFFFFFFFF) p) ^^^ 0xFFFFFFFF

/-- CRC-32 (IEEE) of a byte string. -/
def crc32 (p : List Nat) : Nat := crc32Update 0 p

/-- Big-endian bytes of a 32-bit value (what hash/crc32's `Sum` appends). -/
def be32 (n : Nat) : List Nat :=
  [n / 16777216 % 256, n / 65536 % 256, n / 256 % 256, n % 256]

/-- hash/crc32 digest state is its running CRC value; `crc32.NewIEEE()` and
`Reset()` set it to 0. -/
def digestReset : Nat := 0

/-- hash.Hash32 `Write`: folds bytes into the digest state. -/
def digestWrite (d : Nat) (p : List Nat) : Nat := crc32Update d p

/-- hash.Hash32 `Sum`: appends the big-endian current hash to its argument and
returns that; it does not change the digest state. -/
def digestSum (d : Nat) (bs : List Nat) : List Nat := bs ++ be32 d

/-- hash.Hash32 `Sum32`: the current digest state. -/
def digestSum32 (d : Nat) : Nat := d

/-- The checksum value PublishMulti stores in a frame (server.go:132-134):
`crc.Reset(); crc.Sum(encoded); uint32(crc.Sum32())`.  `Sum` is called where a
`Write` would feed the payload into the digest; `Sum` leaves the state
untouched and its return value is discarded, so `Sum32` is taken on the
freshly reset digest. -/
def checksumWritten (payload : List Nat) : Nat :=
  let d := digestReset
  let _ := digestSum d payload
  digestSum32 d % 2 ^ 32

/-- 4-byte little-endian encoding (binary.LittleEndian.PutUint32). -/
def le32 (n : Nat) : List Nat :=
  [n % 256, n / 256 % 256, n / 65536 % 256, n / 16777216 % 256]

/-- Recombine a 4-byte little-endian field into its value. -/
def le32val : List Nat → Nat
  | a :: b :: c :: d :: _ => a + 256 * b + 65536 * c + 16777216 * d
  | _ => 0

/-- One write on the topic's buffered writer: the oracle `w` decides, from the
bytes being written, whether that write reports an error; a failed write
appends nothing. -/
def writeStep (w : List Nat → Option Err) (file bs : List Nat) : List Nat × Option Err :=
  match w bs with
  | some e => (file, some e)
  | none => (file ++ bs, none)

/-- The per-message body of PublishMulti's framing loop (server.go:123-140):
write the little-endian `len(encoded)+5` length, the zero format marker, the
little-endian checksum, then the payload via io.Copy.  An error from any of
the first three writes aborts the message; the io.Copy error is assigned and
never checked (server.go:140), so a payload-write failure is dropped. -/
def writeFrame (w : List Nat → Option Err) (file payload : List Nat) : List Nat × Option Err :=
  match writeStep w file (le32 ((payload.length + 5) % 2 ^ 32)) with
  | (f, some e) => (f, some e)
  | (f, none) =>
    match writeStep w f [0] with
    | (f2, some e) => (f2, some e)
    | (f2, none) =>
      match writeStep w f2 (le32 (checksumWritten payload)) with
      | (f3, some e) => (f3, some e)
      | (f3, none) => ((writeStep w f3 payload).1, none)

/-- PublishMulti's framing loop over a batch (server.go:117-141): marshal each
message, frame it, stop at the first reported error. -/
def publishLoop {α : Type} (marshal : α → Except Err (List Nat)) (w : List Nat → Option Err)
    (file : List Nat) : List α → List Nat × Option Err
  | [] => (file, none)
  | m :: ms =>
    match marshal m with
    | .error e => (file, some e)
    | .ok payload =>
      match writeFrame w file payload with
      | (f, some e) => (f, some e)
      | (f, none) => publishLoop marshal w f ms

/-- The byte sequence one successfully framed payload contributes. -/
def frameBytes (payload : List Nat) : List Nat :=
  le32 ((payload.length + 5) % 2 ^ 32) ++ [0] ++ le32 (checksumWritten payload) ++ payload

/-- Marshalling a message that is already given by its encoded payload. -/
def idMarshal : List Nat → Except Err (List Nat) := Except.ok

/-- A writer whose underlying writes always succeed. -/
def wOk : List Nat → Option Err := fun _ => none

/-- PublishMulti after the framing loop: store the written bytes back into the
registered topic, then flush; a loop error skips the flush and is returned
(server.go:143-148).  The topic object is registered (and its file mutated)
whether or not the loop failed, as with the pointer in the Go map. -/
def publishToTopic {α : Type} (marshal : α → Except Err (List Nat)) (w : List Nat → Option Err)
    (flushErr : Option Err) (st : ServerState) (t : Topic) (msgs : List α) :
    ServerState × Option Err :=
  let r := publishLoop marshal w t.file msgs
  let t2 : Topic := { t with file := r.1 }
  let st2 : ServerState := { st with topics := fun n => if n = t.name then some t2 else st.topics n }
  match r.2 with
  | some e => (st2, some e)
  | none =>
    match flushErr with
    | some e => (st2, some e)
    | none => (st2, none)

/-- PublishMulti (server.go:88-148): look the topic up; an unknown topic is
lazily created — its directory, a first segment file named `%012d.pubsub` of
offset 0, and a registry entry whose single segment has `offsetBegin = 0` —
and then the framing loop runs.  `mkdirErr` and `fileOpenErr` are the oracles
for os.MkdirAll and os.OpenFile. -/
def publishMulti {α : Type} (marshal : α → Except Err (List Nat)) (w : List Nat → Option Err)
    (flushErr mkdirErr fileOpenErr : Option Err) (st : ServerState) (topicName : String)
    (msgs : List α) : ServerState × Option Err :=
  match st.topics topicName with
  | some t => publishToTopic marshal w flushErr st t msgs
  | none =>
    match mkdirErr with
    | some e => (st, some e)
    | none =>
      match fileOpenErr with
      | some e => (st, some e)
      | none =>
        let msPath := pathJoin (pathJoin st.dir topicName) (sprintf012 0 ++ ".pubsub")
        let t : Topic := { name := topicName, messageSets := [⟨msPath, 0⟩], file := [] }
        let st2 : ServerState :=
          { st with topics := fun n => if n = topicName then some t else st.topics n }
        publishToTopic marshal w flushErr st2 t msgs

/-- The instantiation used by the registry-level theorems: payload-identity
marshalling and a writer, flush, and file-system calls that succeed. -/
def publishedState (st : ServerState) (topicName : String) (msgs : List (List Nat)) :
    ServerState × Option Err :=
  publishMulti idMarshal wOk none none none st topicName msgs

/-- uint64 subtraction as Go computes it: wrap-around modulo `2 ^ 64`. -/
def uint64Sub (a b : Nat) : Nat := (a + (2 ^ 64 - b % 2 ^ 64)) % 2 ^ 64

/-- The bound of Subscribe's skip loop (server.go:181):
`in.Offset - messageSet.offsetBegin` on uint64 values. -/
def subscribeSkip (offset offsetBegin : Nat) : Nat := uint64Sub offset offsetBegin

/-- Subscribe's segment-selection loop (server.go:164-171): start from the
first segment, take each segment whose `offsetBegin <= offset`, stop at the
first one past the offset. -/
def locateLoop (cur : MessageSet) (offset : Nat) : List MessageSet → MessageSet
  | [] => cur
  | s :: t => if s.offsetBegin ≤ offset then locateLoop s offset t else cur

/-- The qualifying test as a Boolean, for `List.filter`. -/
def segLeB (offset : Nat) (s : MessageSet) : Bool := decide (s.offsetBegin ≤ offset)

/-- Follows the spec's words (§4.3 Locate): the last segment whose
`offsetBegin <= offset`; if no segment qualifies, the first segment. -/
def locateSpec (first : MessageSet) (segs : List MessageSet) (offset : Nat) : MessageSet :=
  ((segs.filter (segLeB offset)).getLast?).getD first

/-- Modelled from the spec: the repository's MessageSetReader (its source is
not under src/) reads the frames of the one segment file it is handed,
sequentially; the file system is abstracted as a map from path to the frame
payloads stored there.  Subscribe (server.go:164-203) opens exactly the
located segment's file, runs the skip loop `subscribeSkip` many times, and
yields the remaining frames; no other segment file is ever opened. -/
def subscribePayloads (fs : String → List (List Nat)) (segs : List MessageSet) (offset : Nat) :
    List (List Nat) :=
  match segs with
  | [] => []
  | s0 :: rest =>
    (fs (locateLoop s0 offset (s0 :: rest)).path).drop
      (subscribeSkip offset (locateLoop s0 offset (s0 :: rest)).offsetBegin)

/-- Subscribe's entry checks (server.go:157-163) followed by delivery. -/
def subscribeModel (fs : String → List (List Nat)) (topics : String → Option Topic)
    (topicName : String) (offset : Nat) : Except Err (List (List Nat)) :=
  match topics topicName with
  | none => Except.error Err.notFound
  | some t =>
    match t.messageSets with
    | [] => Except.error Err.internalEmpty
    | s0 :: rest => Except.ok (subscribePayloads fs (s0 :: rest) offset)

/-- A protobuf message (gopubsub.proto). -/
structure Message where
  offset : Nat
  key : List Nat
  value : List Nat
deriving DecidableEq, Repr

/-- Subscribe's delivery loop (server.go:188-203) over the frames read so far:
unmarshal the payload — the unmarshal error variable is immediately
overwritten by the Send error without ever being inspected (server.go:195-199)
— and send the resulting message object; only a Send failure ends the loop. -/
def deliverLoop (u : List Nat → Message × Option Err) (sendErr : Message → Option Err)
    (sent : List Message) : List (List Nat) → List Message × Option Err
  | [] => (sent, none)
  | p :: ps =>
    match sendErr (u p).1 with
    | some e => (sent, some e)
    | none => deliverLoop u sendErr (sent ++ [(u p).1]) ps

/-- filepath.Ext: the suffix beginning at the final dot of the last path
element, empty when there is none. -/
def extScan (suffix : List Char) : List Char → String
  | [] => ""
  | c :: rest =>
    if c = '/' then ""
    else if c = '.' then String.mk (c :: suffix)
    else extScan (c :: suffix) rest

def filepathExt (s : String) : String := extScan [] s.data.reverse

/-- Modelled from the spec: NewMessageSet (its source is not under src/)
derives a segment's `offsetBegin` from the digits embedded in its file
name. -/
def parseOffsetFromName (name : String) : Nat :=
  List.foldl (fun acc c => acc * 10 + (c.toNat - 48)) 0 (name.data.takeWhile fun c => c.isDigit)

def msFromFile (dir name : String) : MessageSet :=
  ⟨pathJoin dir name, parseOffsetFromName name⟩

/-- Modelled from the spec: sort.Sort(MessageSetSort ...) orders a topic's
segments ascending by `offsetBegin`; insertion sort here. -/
def insertByOffset (s : MessageSet) : List MessageSet → List MessageSet
  | [] => [s]
  | t :: ts => if s.offsetBegin ≤ t.offsetBegin then s :: t :: ts else t :: insertByOffset s ts

def sortByOffset (l : List MessageSet) : List MessageSet :=
  List.foldr insertByOffset [] l

/-- Outcome of startup discovery for one topic directory. -/
inductive InitOutcome
  | skipped
  | panicked
  | opened (sets : List MessageSet)
deriving DecidableEq, Repr

/-- init's per-topic-directory body (server.go:52-82): keep the `.pubsub`
files, guard with `len(topic.messageSets) < 0` — exactly as the source writes
it, a test that is never true — sort, then index the last element
(`topic.messageSets[len(topic.messageSets)-1]`, server.go:76).  `panicked`
stands for the out-of-bounds index taken on an empty slice. -/
def initTopic (dir topicName : String) (files : List String) : InitOutcome :=
  let msets := (files.filter fun f => filepathExt f = ".pubsub").map
    (msFromFile (pathJoin dir topicName))
  if msets.length < 0 then InitOutcome.skipped
  else
    match (sortByOffset msets).getLast? with
    | none => InitOutcome.panicked
    | some _ => InitOutcome.opened (sortByOffset msets)

/-- A concrete two-segment file system used in concrete instances. -/
def fsEx : String → List (List Nat) := fun p =>
  if p = "p1" then [[10]] else if p = "p2" then [[20]] else []

/-- A writer whose underlying write fails exactly on the byte string `[1]`. -/
def wFailOn1 : List Nat → Option Err := fun bs => if bs = [1] then some Err.ioFailure else none

/-- A broker state with an empty registry. -/
def stEmpty : ServerState := ⟨"data", fun _ => none⟩

/-! Helper lemmas (shared; none of them is a claim's theorem). -/

theorem writeFrame_ok (file payload : List Nat) :
    writeFrame wOk file payload = (file ++ frameBytes payload, none) := by
  simp [writeFrame, writeStep, wOk, frameBytes, List.append_assoc]

theorem publishLoop_ok (file : List Nat) (ps : List (List Nat)) :
    publishLoop idMarshal wOk file ps = (file ++ (ps.map frameBytes).flatten, none) := by
  induction ps generalizing file with
  | nil => simp [publishLoop]
  | cons p ps ih =>
    have step : publishLoop idMarshal wOk file (p :: ps) =
        publishLoop idMarshal wOk (file ++ frameBytes p) ps := by
      simp [publishLoop, idMarshal, writeFrame_ok]
    rw [step, ih]
    simp [List.append_assoc]

theorem getLast?_getD_cons (a d : MessageSet) (l : List MessageSet) :
    ((a :: l).getLast?).getD d = (l.getLast?).getD a := by
  cases l with
  | nil => rfl
  | cons b t =>
    rw [List.getLast?_cons_cons]
    cases h : (b :: t).getLast? with
    | none => simp at h
    | some x => rfl

theorem locateLoop_eq (offset : Nat) (l : List MessageSet) (cur : MessageSet)
    (hs : l.Pairwise fun a b => a.offsetBegin ≤ b.offsetBegin) :
    locateLoop cur offset l = ((l.filter (segLeB offset)).getLast?).getD cur := by
  induction l generalizing cur with
  | nil => rfl
  | cons s t ih =>
    rcases List.pairwise_cons.mp hs with ⟨hhead, htail⟩
    by_cases hq : s.offsetBegin ≤ offset
    · rw [locateLoop, if_pos hq, ih s htail,
        List.filter_cons_of_pos (by simpa [segLeB] using hq)]
      exact (getLast?_getD_cons s cur _).symm
    · rw [locateLoop, if_neg hq, List.filter_cons_of_neg (by simpa [segLeB] using hq)]
      have hnone : t.filter (segLeB offset) = [] := by
        apply List.filter_eq_nil_iff.mpr
        intro x hx
        simp only [segLeB, decide_eq_true_eq]
        exact fun hle => hq (le_trans (hhead x hx) hle)
      rw [hnone]
      rfl

theorem deliverLoop_ok_sends_all (u : List Nat → Message × Option Err) (sent : List Message)
    (ps : List (List Nat)) :
    deliverLoop u (fun _ => none) sent ps = (sent ++ ps.map fun p => (u p).1, none) := by
  induction ps generalizing sent with
  | nil => simp [deliverLoop]
  | cons p ps ih => simp [deliverLoop, ih]

theorem le32val_le32 (n : Nat) : le32val (le32 n) = n % 2 ^ 32 := by
  simp only [le32, le32val]
  omega

/-! The claims. -/

/-- Claim C1 (code bug): the spec says the 4-byte checksum field written by
PublishMulti's framing loop equals the CRC-32 (IEEE) of the encoded payload.
The code calls `crc.Sum(encoded)` — which leaves the digest untouched and
whose result is discarded — where `crc.Write(encoded)` was intended, so the
stored checksum is `Sum32` of a freshly reset digest, i.e. 0, for every
payload; for payload `[97]` (the byte of "a") the real CRC-32 is 0xE8B7BE43,
and the frame written carries the zero field instead. -/
theorem c1_checksum_always_zero :
    checksumWritten [97] = 0 ∧
    crc32 [97] = 0xE8B7BE43 ∧
    (checksumWritten [97] = crc32 [97]) = False ∧
    writeFrame wOk [] [97] = (le32 6 ++ [0] ++ le32 0 ++ [97], none) :=
  ⟨rfl, by decide, eq_false (by decide), by decide⟩

/-- Claim C2 counterexample: the claim says that for a requested offset O
below the segment's starting offset B the number of skipped messages is 0; at
O = 0, B = 5 the skip-loop bound `in.Offset - messageSet.offsetBegin`
(server.go:181) is not 0 — the uint64 subtraction wraps to 2^64 - 5. -/
theorem c2_skip_zero_counterexample : (subscribeSkip 0 5 = 0) = False :=
  eq_false (by decide)

/-- Claim C2 (amended): the skip loop runs exactly `O - B` times when
`B <= O`; when `O < B` the uint64 subtraction wraps around, so the loop bound
is `2^64 - (B - O)` — the reader attempts to skip that many messages rather
than 0. -/
theorem c2_skip_count (offset offsetBegin : Nat) (hO : offset < 2 ^ 64)
    (hB : offsetBegin < 2 ^ 64) :
    subscribeSkip offset offsetBegin =
      if offsetBegin ≤ offset then offset - offsetBegin
      else 2 ^ 64 - (offsetBegin - offset) := by
  unfold subscribeSkip uint64Sub
  split <;> omega

/-- Witness for the amended C2 at offset 7, segment start 3. -/
theorem c2_skip_count_witness :
    (7 : Nat) < 2 ^ 64 ∧ (3 : Nat) < 2 ^ 64 ∧
    subscribeSkip 7 3 = if (3 : Nat) ≤ 7 then 7 - 3 else 2 ^ 64 - (3 - 7) :=
  ⟨by decide, by decide, c2_skip_count 7 3 (by decide) (by decide)⟩

/-- Claim C3 (code bug): the spec says any per-message write failure aborts
the remaining messages of the batch and the error is returned.  The io.Copy
that writes the payload assigns its error to `err` which is never read
(server.go:140), so when the payload write of the first message fails the
loop writes the second message in full and finishes without error: here the
resulting file holds message 1's bare 9-byte header followed by message 2's
complete frame, and no error is reported. -/
theorem c3_payload_write_error_ignored :
    publishLoop idMarshal wFailOn1 [] [[1], [2]] =
      ([6, 0, 0, 0, 0, 0, 0, 0, 0] ++ [6, 0, 0, 0, 0, 0, 0, 0, 0, 2], none) := by decide

/-- Claim C4 counterexample: with two segments (offsets 0 and 1, files "p1"
holding one frame `[10]` and "p2" holding `[20]`), a subscription at offset 0
delivers exactly the frames of "p1"; the frame `[20]` of the next segment is
never delivered, so delivery does not span segment boundaries. -/
theorem c4_no_handoff_counterexample :
    subscribePayloads fsEx [⟨"p1", 0⟩, ⟨"p2", 1⟩] 0 = [[10]] ∧
    (([20] : List Nat) ∈ subscribePayloads fsEx [⟨"p1", 0⟩, ⟨"p2", 1⟩] 0) = False :=
  ⟨by decide, eq_false (by decide)⟩

/-- Claim C4 (amended): Subscribe opens only the file of the segment located
at subscribe time and its reader never hands off to a later segment: every
payload the subscription delivers is a frame of that one segment's file. -/
theorem c4_single_segment_delivery (fs : String → List (List Nat)) (segs : List MessageSet)
    (offset : Nat) (p : List Nat) (h : p ∈ subscribePayloads fs segs offset) :
    ∃ s0 rest, segs = s0 :: rest ∧ p ∈ fs (locateLoop s0 offset (s0 :: rest)).path := by
  cases segs with
  | nil => simp [subscribePayloads] at h
  | cons s0 rest =>
    refine ⟨s0, rest, rfl, ?_⟩
    simp only [subscribePayloads] at h
    exact List.drop_subset _ _ h

/-- Witness for the amended C4 on a one-segment topic. -/
theorem c4_single_segment_witness :
    ([10] : List Nat) ∈ subscribePayloads fsEx [⟨"p1", 0⟩] 0 ∧
    ∃ s0 rest, ([⟨"p1", 0⟩] : List MessageSet) = s0 :: rest ∧
      ([10] : List Nat) ∈ fsEx (locateLoop s0 0 (s0 :: rest)).path :=
  ⟨by decide, c4_single_segment_delivery fsEx [⟨"p1", 0⟩] 0 [10] (by decide)⟩

/-- Claim C5: each frame is, in order, the 4-byte little-endian length field
holding `payloadLength + 5`, the one-byte zero format marker, the 4-byte
little-endian checksum field, then the payload bytes; successive frames of a
batch are written back-to-back with nothing between them. -/
theorem c5_frame_layout (p : List Nat) (ps : List (List Nat)) (h : p.length + 5 < 2 ^ 32) :
    frameBytes p = le32 (p.length + 5) ++ [0] ++ le32 (checksumWritten p) ++ p ∧
    (le32 (p.length + 5)).length = 4 ∧
    le32val (le32 (p.length + 5)) = p.length + 5 ∧
    (le32 (checksumWritten p)).length = 4 ∧
    publishLoop idMarshal wOk [] ps = ((ps.map frameBytes).flatten, none) := by
  refine ⟨?_, by simp [le32], ?_, by simp [le32], ?_⟩
  · simp only [frameBytes, Nat.mod_eq_of_lt h]
  · rw [le32val_le32, Nat.mod_eq_of_lt h]
  · simpa using publishLoop_ok [] ps

/-- Witness for C5 at the one-byte payload `[7]` and the batch `[[7]]`. -/
theorem c5_frame_layout_witness :
    ([7] : List Nat).length + 5 < 2 ^ 32 ∧
    (frameBytes [7] =
        le32 (([7] : List Nat).length + 5) ++ [0] ++ le32 (checksumWritten [7]) ++ [7] ∧
      (le32 (([7] : List Nat).length + 5)).length = 4 ∧
      le32val (le32 (([7] : List Nat).length + 5)) = ([7] : List Nat).length + 5 ∧
      (le32 (checksumWritten [7])).length = 4 ∧
      publishLoop idMarshal wOk [] [[7]] = (([[7]].map frameBytes).flatten, none)) :=
  ⟨by decide, c5_frame_layout [7] [[7]] (by decide)⟩

/-- Claim C6: on a non-empty segment list sorted ascending by `offsetBegin`,
Subscribe's selection loop picks the last segment whose `offsetBegin <=
offset`, and the first segment when none qualifies — i.e. it agrees with the
spec's `Locate`. -/
theorem c6_locate_last_qualifying (s0 : MessageSet) (rest : List MessageSet) (offset : Nat)
    (hs : (s0 :: rest).Pairwise fun a b => a.offsetBegin ≤ b.offsetBegin) :
    locateLoop s0 offset (s0 :: rest) = locateSpec s0 (s0 :: rest) offset :=
  locateLoop_eq offset (s0 :: rest) s0 hs

/-- Witness for C6 on the sorted two-segment list [0, 5] at offset 3. -/
theorem c6_locate_witness :
    (([⟨"a", 0⟩, ⟨"b", 5⟩] : List MessageSet).Pairwise
      fun a b => a.offsetBegin ≤ b.offsetBegin) ∧
    locateLoop ⟨"a", 0⟩ 3 [⟨"a", 0⟩, ⟨"b", 5⟩] = locateSpec ⟨"a", 0⟩ [⟨"a", 0⟩, ⟨"b", 5⟩] 3 :=
  ⟨by simp, c6_locate_last_qualifying ⟨"a", 0⟩ [⟨"b", 5⟩] 3 (by simp)⟩

/-- Claim C7: Subscribe on a topic name absent from the registry fails with
the topic-not-found error, while PublishMulti on that name creates the topic:
the first segment file is named with offset 0 zero-padded to 12 digits plus
the `.pubsub` extension under the topic's directory, the registered topic's
single segment has `offsetBegin = 0`, and the append proceeds — after the
call the topic's file holds exactly the frames of the batch. -/
theorem c7_lazy_create_vs_not_found (fs : String → List (List Nat)) (st : ServerState)
    (topicName : String) (offset : Nat) (msgs : List (List Nat))
    (h : st.topics topicName = none) :
    subscribeModel fs st.topics topicName offset = Except.error Err.notFound ∧
    sprintf012 0 ++ ".pubsub" = "000000000000.pubsub" ∧
    (publishedState st topicName msgs).2 = none ∧
    (publishedState st topicName msgs).1.topics topicName =
      some ⟨topicName, [⟨pathJoin (pathJoin st.dir topicName) "000000000000.pubsub", 0⟩],
        (msgs.map frameBytes).flatten⟩ := by
  have hname : sprintf012 0 ++ ".pubsub" = "000000000000.pubsub" := by decide
  refine ⟨by simp [subscribeModel, h], hname, ?_, ?_⟩
  · simp [publishedState, publishMulti, h, publishToTopic, publishLoop_ok]
  · simp [publishedState, publishMulti, h, publishToTopic, publishLoop_ok, hname]

/-- Witness for C7: empty registry, topic "orders", batch [[1]]. -/
theorem c7_lazy_create_witness :
    stEmpty.topics "orders" = none ∧
    (subscribeModel (fun _ => []) stEmpty.topics "orders" 0 = Except.error Err.notFound ∧
      sprintf012 0 ++ ".pubsub" = "000000000000.pubsub" ∧
      (publishedState stEmpty "orders" [[1]]).2 = none ∧
      (publishedState stEmpty "orders" [[1]]).1.topics "orders" =
        some ⟨"orders", [⟨pathJoin (pathJoin stEmpty.dir "orders") "000000000000.pubsub", 0⟩],
          ([[1]].map frameBytes).flatten⟩) :=
  ⟨rfl, c7_lazy_create_vs_not_found (fun _ => []) stEmpty "orders" 0 [[1]] rfl⟩

/-- Claim C8 (code bug): the spec says startup discovery never indexes the
last element of an empty segment list — a topic directory with no `.pubsub`
files is skipped or reported.  The guard is written `len(topic.messageSets) <
0` (server.go:70), which is never true, so for a topic directory with no
files, or with only `notes.txt`, the code reaches
`topic.messageSets[len(topic.messageSets)-1]` on an empty slice — an
out-of-bounds access. -/
theorem c8_discovery_empty_topic_out_of_bounds :
    initTopic "data" "t" [] = InitOutcome.panicked ∧
    initTopic "data" "t" ["notes.txt"] = InitOutcome.panicked := by decide

/-- Claim C9: in the delivery loop the result of proto.Unmarshal is discarded
(the error variable is overwritten by the Send error, server.go:195-199):
for every unmarshal behavior `u` — including ones reporting an error on some
payloads — every read frame still produces a sent response carrying the
message object `u` produced, and the stream is not terminated. -/
theorem c9_unmarshal_error_discarded (u : List Nat → Message × Option Err)
    (ps : List (List Nat)) :
    deliverLoop u (fun _ => none) [] ps = (ps.map (fun p => (u p).1), none) := by
  simpa using deliverLoop_ok_sends_all u [] ps

/-- Claim C10: PublishMulti on an unknown topic with an empty batch still
creates and registers the topic — one segment file of offset 0, empty file
content — returns success, and leaves every other registry entry unchanged. -/
theorem c10_empty_publish_creates_topic (st : ServerState) (topicName : String)
    (h : st.topics topicName = none) :
    (publishedState st topicName []).2 = none ∧
    (publishedState st topicName []).1.topics = fun n =>
      if n = topicName then
        some ⟨topicName, [⟨pathJoin (pathJoin st.dir topicName) "000000000000.pubsub", 0⟩], []⟩
      else st.topics n := by
  have hname : sprintf012 0 ++ ".pubsub" = "000000000000.pubsub" := by decide
  constructor
  · simp [publishedState, publishMulti, h, publishToTopic, publishLoop]
  · funext n
    by_cases hn : n = topicName
    · subst hn
      simp [publishedState, publishMulti, h, publishToTopic, publishLoop, hname]
    · simp [publishedState, publishMulti, h, publishToTopic, publishLoop, hn]

/-- Witness for C10: empty registry, topic "acks". -/
theorem c10_empty_publish_witness :
    stEmpty.topics "acks" = none ∧
    ((publishedState stEmpty "acks" []).2 = none ∧
      (publishedState stEmpty "acks" []).1.topics = fun n =>
        if n = "acks" then
          some ⟨"acks", [⟨pathJoin (pathJoin stEmpty.dir "acks") "000000000000.pubsub", 0⟩], []⟩
        else stEmpty.topics n) :=
  ⟨rfl, c10_empty_publish_creates_topic stEmpty "acks" rfl⟩

end GoPubSub
